import Mathlib

/-!
Shallow embedding of the Steam scraper / scanner addon
(`resources/lib/scraper.py`, `resources/lib/scanner.py`).

Modelling conventions:
* Python dictionaries coming from JSON are embedded as structures whose
  fields are `Option`-valued (`none` = key absent or `None`).
* `GameData` stands for the dictionary `json_data[appid]['data']` of the
  Steam appdetails response.  The `release_date` field collapses the chain
  `'release_date' in d and 'date' in d['release_date'] and
  d['release_date']['date'] is not None` into one `Option String`.
* The default metadata sentinels (`DEFAULT_META_TITLE`, `DEFAULT_META_YEAR`,
  `DEFAULT_META_GENRE`, ...) live in the external `akl.constants` package,
  which is not part of this repository; they are therefore parameters of the
  model, bundled in the `Defaults` structure.
* Machine integers do not occur; all counters are small `Nat`s.
* Python exceptions are modelled with `Option`/`Except` result types.
-/

namespace SteamSpec

/-- Default sentinels from the external `akl.constants` module (external
collaborator, values not defined in this repository). -/
structure Defaults where
  title : String
  year : String
  genre : String
  plot : String
  rating : ℚ
deriving DecidableEq, Repr

/-- The `json_data[appid]['data']` dictionary of one appdetails response, with
every key the parsers of `scraper.py` touch. `categories` holds the list of
`c['id']` values, `genres` the list of `g['description']` values, as extracted
by the list comprehensions in the source. -/
structure GameData where
  name : Option String := none
  release_date : Option String := none
  genres : Option (List String) := none
  developers : Option (List String) := none
  detailed_description : Option String := none
  metacritic : Option Nat := none
  categories : Option (List Nat) := none
deriving DecidableEq, Repr

/-- Embedding of `SteamScraper._parse_metadata_title`. -/
def parse_metadata_title (d : Defaults) (game_dic : GameData) : String :=
  match game_dic.name with
  | some title_str => title_str
  | none => d.title

/-- Embedding of `SteamScraper._parse_metadata_year`.  The source reads
`online_data['release_date']['date'][-4]` — the single character four
positions from the end (not the slice `[-4:]`).  A negative index on a string
shorter than 4 characters raises `IndexError`, modelled as `none`. -/
def parse_metadata_year (d : Defaults) (online_data : GameData) : Option String :=
  match online_data.release_date with
  | none => some d.year
  | some date =>
      if h : 4 ≤ date.data.length then
        some (String.singleton (date.data.get ⟨date.data.length - 4, by omega⟩))
      else
        none

/-- Embedding of `SteamScraper._parse_metadata_genres`: missing `genres` key yields the
empty string; a present-but-empty list yields the default sentinel;
otherwise the descriptions are comma-joined. -/
def parse_metadata_genres (d : Defaults) (online_data : GameData) : String :=
  match online_data.genres with
  | none => ""
  | some genres =>
      if genres = [] then d.genre else String.intercalate ", " genres

/-- Embedding of `SteamScraper._parse_metadata_developer`. -/
def parse_metadata_developer (online_data : GameData) : String :=
  match online_data.developers with
  | none => ""
  | some developers => String.intercalate ", " developers

/-- Helper for `_clean_HTML_from_text`: after an opening `<` and a first
non-`<` character, find the first `>` with no `<` in between; returns the
characters after that `>` (the continuation of the scan). -/
def findTagClose : List Char → Option (List Char)
  | [] => none
  | c :: t => if c = '>' then some t else if c = '<' then none else findTagClose t

/-- Helper for `_clean_HTML_from_text`: try to match the regex
`[^<]+?>` (at least one non-`<` character, then `>`) at the head of the list,
returning the remainder after the match. -/
def findTagEnd : List Char → Option (List Char)
  | [] => none
  | c :: t => if c = '<' then none else findTagClose t

theorem findTagClose_length : ∀ l l', findTagClose l = some l' → l'.length < l.length := by
  intro l
  induction l with
  | nil => intro l' h; simp [findTagClose] at h
  | cons c t ih =>
      intro l' h
      simp only [findTagClose] at h
      split at h
      · cases h; simp
      · split at h
        · cases h
        · have := ih l' h
          simp; omega

theorem findTagEnd_length : ∀ l l', findTagEnd l = some l' → l'.length < l.length := by
  intro l l' h
  cases l with
  | nil => simp [findTagEnd] at h
  | cons c t =>
      simp only [findTagEnd] at h
      split at h
      · cases h
      · have := findTagClose_length t l' h
        simp; omega

/-- Scanner for `re.sub('<[^<]+?>', '', txt)`: leftmost, shortest matches are
dropped; positions without a match are copied through. -/
def cleanHTMLAux (l : List Char) : List Char :=
  match l with
  | [] => []
  | c :: rest =>
      if c = '<' then
        match h : findTagEnd rest with
        | some rest2 => cleanHTMLAux rest2
        | none => c :: cleanHTMLAux rest
      else
        c :: cleanHTMLAux rest
termination_by l.length
decreasing_by
  all_goals simp only [List.length_cons]
  · have := findTagEnd_length t rest2 h
    omega
  · omega
  · omega

/-- Embedding of `SteamScraper._clean_HTML_from_text`: regex-based tag removal. -/
def clean_HTML_from_text (txt : String) : String :=
  String.mk (cleanHTMLAux txt.data)

/-- Embedding of `SteamScraper._parse_metadata_plot`. -/
def parse_metadata_plot (d : Defaults) (online_data : GameData) : String :=
  match online_data.detailed_description with
  | some txt => clean_HTML_from_text txt
  | none => d.plot

/-- Embedding of `SteamScraper._parse_metadata_rating`: the metacritic score (0–100) is
scaled to 0–1. -/
def parse_metadata_rating (d : Defaults) (online_data : GameData) : ℚ :=
  match online_data.metacritic with
  | some score => (score : ℚ) / 100
  | none => d.rating

/-- Embedding of `SteamScraper._parse_metadata_tags`: the fixed category-id → tag mapping,
appended in source order.  Note the source tests `9 in category_ids` twice
(lines 369 and 383 of `scraper.py`), so `co-op` is appended a second time at
the end of the list whenever category 9 is present. -/
def parse_metadata_tags (online_data : GameData) : List String :=
  match online_data.categories with
  | none => []
  | some category_ids =>
      let tags : List String := []
      let tags := if 1 ∈ category_ids then tags ++ ["multiplayer"] else tags
      let tags := if 2 ∈ category_ids then tags ++ ["singleplayer"] else tags
      let tags := if 9 ∈ category_ids then tags ++ ["co-op"] else tags
      let tags := if 38 ∈ category_ids then tags ++ ["online-co-op"] else tags
      let tags := if 49 ∈ category_ids then tags ++ ["pvp"] else tags
      let tags := if 36 ∈ category_ids then tags ++ ["online-pvp"] else tags
      let tags :=
        if 24 ∈ category_ids ∨ 37 ∈ category_ids ∨ 39 ∈ category_ids then
          tags ++ ["splitscreen"]
        else tags
      let tags := if 18 ∈ category_ids then tags ++ ["partial-controller-support"] else tags
      let tags := if 28 ∈ category_ids then tags ++ ["controller-supported"] else tags
      let tags := if 9 ∈ category_ids then tags ++ ["co-op"] else tags
      tags

/-- Helper for `_clean_URL_for_log`: drop characters up to and including the
first `&` (the greedy `[^&]*&` part of the regex); `none` when there is no
`&`, i.e. the regex `pat=[^&]*&` has no match at this position. -/
def dropThroughAmp : List Char → Option (List Char)
  | [] => none
  | c :: t => if c = '&' then some t else dropThroughAmp t

theorem dropThroughAmp_length : ∀ l l', dropThroughAmp l = some l' → l'.length < l.length := by
  intro l
  induction l with
  | nil => intro l' h; simp [dropThroughAmp] at h
  | cons c t ih =>
      intro l' h
      simp only [dropThroughAmp] at h
      split at h
      · cases h; simp
      · have := ih l' h
        simp; omega

/-- Scanner for `re.sub(pat + '[^&]*&', pat + '***&', url)` where `pat` is a
literal such as `apikey=`: each occurrence of the pattern followed by its
value and a `&` is rewritten, scanning left to right, continuing after the
replaced match. -/
def subKeyAmp (pat : List Char) (l : List Char) : List Char :=
  match l with
  | [] => []
  | c :: t =>
      if pat.isPrefixOf (c :: t) then
        match h : dropThroughAmp ((c :: t).drop pat.length) with
        | some rest => (pat ++ "***&".data) ++ subKeyAmp pat rest
        | none => c :: subKeyAmp pat t
      else
        c :: subKeyAmp pat t
termination_by l.length
decreasing_by
  all_goals simp only [List.length_cons]
  · have h2 := dropThroughAmp_length _ rest h
    have h3 : ((c :: t).drop pat.length).length ≤ (c :: t).length := by
      simp [List.length_drop]
    simp only [List.length_cons] at h3
    omega
  · omega
  · omega

/-- Scanner for `re.sub(pat + '[^&]*$', pat + '***', url)`: at the leftmost
position where `pat` matches and no `&` occurs afterwards, the rest of the
string is replaced. -/
def subKeyEnd (pat : List Char) (l : List Char) : List Char :=
  match l with
  | [] => []
  | c :: t =>
      if pat.isPrefixOf l ∧ '&' ∉ l.drop pat.length then
        pat ++ "***".data
      else
        c :: subKeyEnd pat t

/-- Embedding of `SteamScraper._clean_URL_for_log`: the two substitutions
`re.sub('apikey=[^&]*&', 'apikey=***&', url)` and
`re.sub('apikey=[^&]*$', 'apikey=***', url)`, applied in that order, after the
falsy-value early return. -/
def clean_URL_for_log (url : String) : String :=
  if url = "" then url
  else String.mk (subKeyEnd "apikey=".data (subKeyAmp "apikey=".data url.data))

/-- One asset dictionary as produced by `_new_assetdata_dic` and filled by
`get_assets`. -/
structure AssetData where
  asset_ID : String
  display_name : String
  url_thumb : String
  url : String
deriving DecidableEq, Repr

/-- Embedding of `SteamScraper.resolve_asset_URL`: the stored URL unchanged, plus the
loggable redacted form. -/
def resolve_asset_URL (selected_asset : AssetData) : String × String :=
  (selected_asset.url, clean_URL_for_log selected_asset.url)

/-! ### Candidate search (`SteamScraper._search_candidates`) -/

/-- One candidate dictionary (`_new_candidate_dic` plus the fields set by
`_search_candidates`). -/
structure Candidate where
  id : Nat
  display_name : String
  order : Nat
deriving DecidableEq, Repr

/-- Python `str.lower()`, character-wise (`String.toLower` is the same
mapping, but this spelling keeps the definition kernel-computable). -/
def pyLower (s : String) : String :=
  String.mk (s.data.map Char.toLower)

/-- Python substring test `hay.find(needle) != -1`. -/
def containsSub (hay needle : List Char) : Bool :=
  needle.isPrefixOf hay ||
    match hay with
    | [] => false
    | _ :: t => containsSub t needle

/-- The score each candidate receives in `_search_candidates`: start at 1,
add 2 on a case-insensitive exact match, add 1 more on a case-insensitive
substring match. -/
def candidateOrder (search_term title : String) : Nat :=
  let order := 1
  let order := if pyLower title = pyLower search_term then order + 2 else order
  let order :=
    if containsSub (pyLower title).data (pyLower search_term).data then order + 1 else order
  order

/-- The candidate list built from the JSON response (pairs of `appid` and
`name`), before sorting. -/
def scored_candidates (search_term : String) (json_data : List (Nat × String)) :
    List Candidate :=
  json_data.map (fun item =>
    { id := item.1
      display_name := item.2
      order := candidateOrder search_term item.2 })

/-- Embedding of `SteamScraper._search_candidates` on an already-decoded JSON response:
build the scored candidates, then `candidate_list.sort(key=..., reverse=True)`
— a stable sort, descending by `order`. -/
def search_candidates (search_term : String) (json_data : List (Nat × String)) :
    List Candidate :=
  (scored_candidates search_term json_data).mergeSort
    (fun a b => decide (b.order ≤ a.order))

/-! ### Metadata resolution and cache (`SteamScraper.get_metadata`) -/

instance exceptDecEq {ε α : Type} [DecidableEq ε] [DecidableEq α] :
    DecidableEq (Except ε α)
  | .ok a, .ok b =>
      if h : a = b then .isTrue (by rw [h]) else .isFalse (by simp [h])
  | .ok _, .error _ => .isFalse (by simp)
  | .error _, .ok _ => .isFalse (by simp)
  | .error e, .error f =>
      if h : e = f then .isTrue (by rw [h]) else .isFalse (by simp [h])

/-- The complete gamedata dictionary returned by `get_metadata` (all seven
fields the scraper fills in). -/
structure GameDataDic where
  title : String
  year : String
  genre : String
  developer : String
  plot : String
  rating : ℚ
  tags : List String
deriving DecidableEq, Repr

/-- The ways a `get_metadata` call can fail to return a gamedata dictionary:
either `_retrieve_URL_as_JSON` reported an error in `status_dic` (the
function returns `None`), or the later parsing raises a Python exception. -/
inductive MetaErr where
  | fetchFailed
  | unboundLocalId
  | keyError
  | indexError
deriving DecidableEq, Repr

/-- The decoded appdetails response `json_data`: a dictionary from appid to
the `['data']` dictionary (the `['data']` projection is collapsed into the
association-list value). -/
abbrev JsonData := List (String × GameData)

/-- The parsing block of `get_metadata` (lines 158–167 of `scraper.py`)
applied to one `online_data` dictionary.  The only parser that can raise is
`_parse_metadata_year` (IndexError on a date string shorter than 4
characters). -/
def parse_gamedata (d : Defaults) (online_data : GameData) : Except MetaErr GameDataDic :=
  match parse_metadata_year d online_data with
  | none => .error .indexError
  | some year =>
      .ok {
        title := parse_metadata_title d online_data
        year := year
        genre := parse_metadata_genres d online_data
        developer := parse_metadata_developer online_data
        plot := parse_metadata_plot d online_data
        rating := parse_metadata_rating d online_data
        tags := parse_metadata_tags online_data }

/-- Result of one `get_metadata` call: the returned value (or error), the
metadata disk cache afterwards, and whether a network fetch was issued. -/
structure MetaCall where
  result : Except MetaErr GameDataDic
  cache : List (String × JsonData)
  fetched : Bool
deriving DecidableEq, Repr

/-- Embedding of `SteamScraper.get_metadata` (scraper enabled), with the network modelled
by `fetch_result` (`none` = the fetch fails and `_retrieve_URL_as_JSON`
marks an error in `status_dic`).  The structure mirrors the source: the
if/else on `_check_disk_cache` produces `json_data` — and assigns the local
variable `id` only in the cache-miss branch (`idVar = none` models the
unassigned local, whose later read `json_data[id]` raises
`UnboundLocalError`) — after which the common parsing code runs. -/
def get_metadata (d : Defaults) (candidate_id cache_key : String)
    (fetch_result : Option JsonData) (cache : List (String × JsonData)) : MetaCall :=
  let branch : Except MetaErr (JsonData × Option String × List (String × JsonData) × Bool) :=
    match cache.lookup cache_key with
    | some json_data => .ok (json_data, none, cache, false)
    | none =>
        match fetch_result with
        | none => .error .fetchFailed
        | some json_data => .ok (json_data, some candidate_id, (cache_key, json_data) :: cache, true)
  match branch with
  | .error e => { result := .error e, cache := cache, fetched := true }
  | .ok (json_data, idVar, cache2, fetched) =>
      match idVar with
      | none => { result := .error .unboundLocalId, cache := cache2, fetched := fetched }
      | some id =>
          match json_data.lookup id with
          | none => { result := .error .keyError, cache := cache2, fetched := fetched }
          | some online_data =>
              { result := parse_gamedata d online_data, cache := cache2, fetched := fetched }

/-! ### Rate-limit / retry controller (`SteamScraper._retrieve_URL_as_JSON`) -/

/-- Errors surfaced by `_retrieve_URL_as_JSON` through `status_dic`. -/
inductive RetrErr where
  | rateLimitExhausted
  | httpError (code : Nat)
  | networkError
deriving DecidableEq, Repr

/-- Observable outcome of one `_retrieve_URL_as_JSON` call: how many HTTP
requests were issued, every wait in milliseconds in order (1000 for a
cool-down, `5000 * retry` for a 429 back-off), and the result. -/
structure FetchOut where
  requests : Nat
  waits : List Nat
  result : Except RetrErr String
deriving DecidableEq, Repr

/-- Embedding of `SteamScraper._retrieve_URL_as_JSON`.  `oracle n` is the network's answer
(body, HTTP status) to the `n`-th request this call issues (0-based);
`retry` is the keyword argument (default 1); `call_count` is
`self.call_count` on entry.  Returns the observable outcome and the final
`self.call_count`. -/
def retrieve_URL_as_JSON (oracle : Nat → Option String × Nat)
    (attempt retry call_count : Nat) : FetchOut × Nat :=
  let cooled := call_count > 4
  let cc0 := if cooled then 0 else call_count
  let coolWaits := if cooled then [1000] else []
  let answer := oracle attempt
  let json_data := answer.1
  let http_code := answer.2
  let cc := cc0 + 1
  if http_code ≠ 200 then
    if http_code = 429 then
      if h : retry > 4 then
        ({ requests := 1, waits := coolWaits, result := .error .rateLimitExhausted }, cc)
      else
        let rest := retrieve_URL_as_JSON oracle (attempt + 1) (retry + 1) cc
        ({ requests := rest.1.requests + 1,
           waits := coolWaits ++ 5000 * retry :: rest.1.waits,
           result := rest.1.result }, rest.2)
    else
      ({ requests := 1, waits := coolWaits, result := .error (.httpError http_code) }, cc)
  else
    match json_data with
    | none => ({ requests := 1, waits := coolWaits, result := .error .networkError }, cc)
    | some body => ({ requests := 1, waits := coolWaits, result := .ok body }, cc)
termination_by 5 - retry
decreasing_by omega

/-- A network that always answers 200 with a fixed body. -/
def ok200 : Nat → Option String × Nat := fun _ => (some "body", 200)

/-- Value of `self.call_count` after `n` successful (HTTP 200) top-level calls to
`_retrieve_URL_as_JSON`, starting from a fresh scraper (`call_count = 0`). -/
def callState : Nat → Nat
  | 0 => 0
  | n + 1 => (retrieve_URL_as_JSON ok200 0 1 (callState n)).2

/-- Whether a cool-down pause happens during the call that follows `n`
completed successful calls (i.e. during call number `n + 1`). -/
def pause_before_call (n : Nat) : Bool :=
  (retrieve_URL_as_JSON ok200 0 1 (callState n)).1.waits ≠ []

/-- The per-call wait lists of `n` consecutive successful calls starting from
`call_count = cc`. -/
def run_calls : Nat → Nat → List (List Nat)
  | 0, _ => []
  | n + 1, cc =>
      let this := retrieve_URL_as_JSON ok200 0 1 cc
      this.1.waits :: run_calls n this.2

/-! ### Dead-item scan (`RomFolderScanner._getDeadRoms`) -/

/-- Embedding of `RomFolderScanner._getDeadRoms`: iterate the collection in reverse
(`for rom in reversed(roms)`); a ROM whose file does not exist is removed
from the collection (`roms.remove(rom)`, i.e. erase the first equal element)
and appended to `dead_roms`.  Returns the collection after the removals and
the `dead_roms` list in append order.  The empty collection is a no-op. -/
def getDeadRoms {α : Type} [DecidableEq α] (file_exists : α → Bool)
    (roms : List α) : List α × List α :=
  if roms.length = 0 then (roms, [])
  else
    roms.reverse.foldl
      (fun st rom =>
        if file_exists rom then st else (st.1.erase rom, st.2 ++ [rom]))
      (roms, [])

/-! ### Claim-side definitions (written from the spec text, for comparison) -/

/-- The spec claim for the year field: the last 4 characters of the
release-date string (a Python slice `[-4:]`, which clamps on short
strings). -/
def lastFourChars (s : String) : String :=
  String.mk (s.data.drop (s.data.length - 4))

/-- The spec claim for the tags field: each tag name whose category-id
condition holds, once, in the glossary order. -/
def claimTags (ids : List Nat) : List String :=
  (if 1 ∈ ids then ["multiplayer"] else [])
    ++ (if 2 ∈ ids then ["singleplayer"] else [])
    ++ (if 9 ∈ ids then ["co-op"] else [])
    ++ (if 38 ∈ ids then ["online-co-op"] else [])
    ++ (if 49 ∈ ids then ["pvp"] else [])
    ++ (if 36 ∈ ids then ["online-pvp"] else [])
    ++ (if 24 ∈ ids ∨ 37 ∈ ids ∨ 39 ∈ ids then ["splitscreen"] else [])
    ++ (if 18 ∈ ids then ["partial-controller-support"] else [])
    ++ (if 28 ∈ ids then ["controller-supported"] else [])

/-- The spec claim for URL redaction: the pattern is `key=` (value up to `&`
or end of string), not `apikey=`. -/
def clean_URL_claim (url : String) : String :=
  String.mk (subKeyEnd "key=".data (subKeyAmp "key=".data url.data))

/-- A concrete instantiation of the external default sentinels, used in
concrete scenarios. -/
def sampleDefaults : Defaults :=
  { title := "Unknown Title", year := "1900", genre := "Unknown Genre",
    plot := "No plot", rating := 0 }

/-! ### Claim theorems -/

/-- Claim C4: the spec says the parsed year equals the last 4 characters of
the release-date string.  The code indexes `date[-4]` — a single character —
so on the release date `12 Aug 2014` it produces `"2"`, not `"2014"`; the
absent-date branch does return the default sentinel as claimed. -/
theorem C4_year_is_one_character :
    parse_metadata_year sampleDefaults { release_date := some "12 Aug 2014" } = some "2"
  ∧ lastFourChars "12 Aug 2014" = "2014"
  ∧ some "2" ≠ some (lastFourChars "12 Aug 2014")
  ∧ (∀ d : Defaults, parse_metadata_year d {} = some d.year) := by
  refine ⟨by decide, by decide, by decide, fun d => rfl⟩

/-- Claim C5 counterexample: a payload without the `genres` key yields the
empty string, not the (non-empty) default genre sentinel. -/
theorem C5_counterexample :
    parse_metadata_genres sampleDefaults {} = ""
  ∧ sampleDefaults.genre = "Unknown Genre"
  ∧ ("" : String) ≠ "Unknown Genre" := by
  refine ⟨rfl, rfl, by decide⟩

/-- Claim C5 amended: a payload lacking the `genres` key yields the empty
string; the fixed default genre string is produced only when the key is
present with an empty list; a non-empty list is comma-joined. -/
theorem C5_missing_genres_empty_string (d : Defaults) (g : GameData) :
    (g.genres = none → parse_metadata_genres d g = "")
  ∧ (g.genres = some [] → parse_metadata_genres d g = d.genre)
  ∧ (∀ gs, gs ≠ [] → g.genres = some gs →
       parse_metadata_genres d g = String.intercalate ", " gs) := by
  refine ⟨fun h => by simp [parse_metadata_genres, h],
          fun h => by simp [parse_metadata_genres, h],
          fun gs hne h => by simp [parse_metadata_genres, h, hne]⟩

/-- Claim C5 witness: the amended theorem applied to a concrete payload. -/
theorem C5_witness :
    parse_metadata_genres sampleDefaults {} = "" :=
  (C5_missing_genres_empty_string sampleDefaults {}).1 rfl

/-- Helper: the `dead_roms` component of the scan fold is the filtered input,
independent of the collection the fold is removing from. -/
theorem deadRoms_fold {α : Type} [DecidableEq α] (file_exists : α → Bool) :
    ∀ (l : List α) (st : List α × List α),
      (l.foldl
        (fun st rom =>
          if file_exists rom then st else (st.1.erase rom, st.2 ++ [rom])) st).2
        = st.2 ++ l.filter (fun r => !file_exists r) := by
  intro l
  induction l with
  | nil => intro st; simp
  | cons rom t ih =>
      intro st
      simp only [List.foldl_cons, List.filter_cons]
      by_cases h : file_exists rom
      · simp [h, ih]
      · simp only [h, if_neg, Bool.not_true]
        rw [ih]
        simp [h]

/-- Claim C6 counterexample: with both items dead, the dead list comes back
in reverse input order, not input order. -/
theorem C6_counterexample :
    (getDeadRoms (fun _ => false) [1, 2]).2 = [2, 1]
  ∧ ([2, 1] : List Nat) ≠ [1, 2] := by
  refine ⟨by decide, by decide⟩

/-- Claim C6 amended: the dead list equals the input collection reversed and
then filtered to the non-existing items — the reverse iteration order is
kept, it is never re-reversed. -/
theorem C6_dead_roms_in_reverse_order {α : Type} [DecidableEq α]
    (file_exists : α → Bool) (roms : List α) :
    (getDeadRoms file_exists roms).2
      = roms.reverse.filter (fun r => !file_exists r) := by
  unfold getDeadRoms
  by_cases h : roms.length = 0
  · have : roms = [] := List.length_eq_zero.mp h
    simp [this]
  · simp only [h, if_neg, if_false]
    rw [deadRoms_fold]
    simp

/-- Claim C6 witness: the amended theorem applied to a concrete collection in
which items 3 and 4 are dead. -/
theorem C6_witness :
    (getDeadRoms (fun n => decide (n ≤ 2)) [1, 3, 2, 4]).2 = [4, 3] := by
  have h := C6_dead_roms_in_reverse_order (fun n => decide (n ≤ 2)) [1, 3, 2, 4]
  rw [h]
  decide

/-- Claim C9 counterexample: category id 9 appends `co-op` twice (the source
tests `9 in category_ids` twice), so the tags list is not the glossary
mapping list. -/
theorem C9_counterexample :
    parse_metadata_tags { categories := some [9] } = ["co-op", "co-op"]
  ∧ (["co-op", "co-op"] : List String) ≠ ["co-op"] := by
  refine ⟨by decide, by decide⟩

/-- Helper: pull a conditional append apart, so the sequentially built tag
list can be compared with a concatenation of per-condition blocks. -/
theorem append_ite_append {σ : Type} (c : Prop) [Decidable c] (xs ys : List σ) :
    (if c then xs ++ ys else xs) = xs ++ (if c then ys else []) := by
  split <;> simp

/-- Claim C9 amended: the tags are exactly the glossary mapping list, except
that `co-op` is appended once more at the end whenever category 9 is
present; a payload without the `categories` key yields the empty list. -/
theorem C9_tags_mapping (g : GameData) :
    (g.categories = none → parse_metadata_tags g = [])
  ∧ (∀ ids, g.categories = some ids →
       parse_metadata_tags g
         = claimTags ids ++ (if 9 ∈ ids then ["co-op"] else [])) := by
  constructor
  · intro h
    simp [parse_metadata_tags, h]
  · intro ids h
    simp only [parse_metadata_tags, h, claimTags]
    simp only [append_ite_append]
    simp [List.append_assoc]

/-- Claim C9 witness: the amended theorem applied to a concrete payload. -/
theorem C9_witness :
    parse_metadata_tags { categories := some [38] } = ["online-co-op"] := by
  have h := (C9_tags_mapping { categories := some [38] }).2 [38] rfl
  rw [h]
  decide

/-- A concrete appdetails payload for app id 400. -/
def c1Payload : GameData :=
  { name := some "Portal", release_date := some "19 Apr 2007",
    genres := some ["Action"], developers := some ["Valve"],
    detailed_description := none, metacritic := some 90,
    categories := some [2] }

/-- The decoded appdetails response for app id 400. -/
def c1Json : JsonData := [("400", c1Payload)]

/-- The first `get_metadata` call for candidate 400 on an empty cache. -/
def c1First : MetaCall :=
  get_metadata sampleDefaults "400" "steam_400" (some c1Json) []

/-- The immediately following `get_metadata` call for the same candidate,
running on the cache the first call produced. -/
def c1Second : MetaCall :=
  get_metadata sampleDefaults "400" "steam_400" (some c1Json) c1First.cache

/-- Claim C1: two consecutive `get_metadata` calls do issue exactly one
network fetch, but the second call does not return the cached record: on the
cache-hit path the local variable `id` (assigned only in the cache-miss
branch, line 146 of `scraper.py`) is read at line 158, raising
`UnboundLocalError` instead of producing the metadata record — contradicting
the function's own comment that repeat calls must be served from the
cache. -/
theorem C1_second_call_raises_unbound_local :
    c1First.fetched = true
  ∧ c1First.result = .ok
      { title := "Portal", year := "2", genre := "Action", developer := "Valve",
        plot := "No plot", rating := ((90 : Nat) : ℚ) / 100,
        tags := ["singleplayer"] }
  ∧ c1Second.fetched = false
  ∧ c1Second.result = .error .unboundLocalId := by
  refine ⟨rfl, rfl, rfl, rfl⟩

/-- Claim C8: when the cache misses and the network fetch fails, the error
propagates (`status_dic` marked, `None` returned) and no cache entry is
written, so the same key still misses afterwards. -/
theorem C8_fetch_failure_never_cached (d : Defaults) (candidate_id cache_key : String)
    (cache : List (String × JsonData))
    (hmiss : cache.lookup cache_key = none) :
    get_metadata d candidate_id cache_key none cache
      = { result := .error .fetchFailed, cache := cache, fetched := true }
  ∧ (get_metadata d candidate_id cache_key none cache).cache.lookup cache_key
      = none := by
  have h : get_metadata d candidate_id cache_key none cache
      = { result := .error .fetchFailed, cache := cache, fetched := true } := by
    simp [get_metadata, hmiss]
  exact ⟨h, by rw [h]; exact hmiss⟩

/-- Claim C8 witness: the theorem applied to an empty cache. -/
theorem C8_witness :
    get_metadata sampleDefaults "400" "steam_400" none []
      = { result := .error .fetchFailed, cache := [], fetched := true } :=
  (C8_fetch_failure_never_cached sampleDefaults "400" "steam_400" [] rfl).1

/-- Claim C10 counterexample: the source redacts only `apikey=` parameters
(`re.sub('apikey=[^&]*...')`), so a URL with a plain `key=` parameter is
returned by `resolve_asset_URL` with the secret intact in the loggable form,
while the claim's `key=` rule would have redacted it. -/
theorem C10_counterexample :
    resolve_asset_URL
        { asset_ID := "fanart", display_name := "Background image",
          url_thumb := "", url := "http://img.example/bg.png?key=SECRET" }
      = ("http://img.example/bg.png?key=SECRET", "http://img.example/bg.png?key=SECRET")
  ∧ clean_URL_claim "http://img.example/bg.png?key=SECRET"
      = "http://img.example/bg.png?key=***"
  ∧ ("http://img.example/bg.png?key=SECRET" : String)
      ≠ "http://img.example/bg.png?key=***" := by
  refine ⟨?_, ?_, by decide⟩
  · simp [resolve_asset_URL, clean_URL_for_log, subKeyAmp, subKeyEnd, dropThroughAmp]
  · simp [clean_URL_claim, subKeyAmp, subKeyEnd, dropThroughAmp]

/-- Claim C10 amended: `resolve_asset_URL` returns the stored URL unchanged
together with the loggable form, and the loggable form redacts `apikey=`
query parameters (value up to `&` or end of string) — not parameters merely
named `key=`. -/
theorem C10_resolve_asset_URL_redacts_apikey (selected_asset : AssetData) :
    resolve_asset_URL selected_asset
      = (selected_asset.url, clean_URL_for_log selected_asset.url)
  ∧ clean_URL_for_log "http://api.example/a.png?apikey=SECRET&sz=1"
      = "http://api.example/a.png?apikey=***&sz=1"
  ∧ clean_URL_for_log "http://api.example/a.png?apikey=SECRET"
      = "http://api.example/a.png?apikey=***" := by
  refine ⟨rfl, ?_, ?_⟩
  · simp [clean_URL_for_log, subKeyAmp, subKeyEnd, dropThroughAmp]
  · simp [clean_URL_for_log, subKeyAmp, subKeyEnd, dropThroughAmp]

/-- Claim C3: a 429 answer with `retry ≤ 4` waits `5000·retry` milliseconds
(5 seconds × attempt number) and retries the same request with `retry + 1`;
a 429 answer with `retry > 4` surfaces the terminal rate-limit error without
another request; a stream of 429s starting at `retry = 1` issues exactly 5
requests (the initial one plus 4 retries, no 6th) with waits 5 s, 10 s,
15 s, 20 s; a 429 followed by a 200 succeeds after one 5 s wait. -/
theorem C3_429_retry_protocol :
    (∀ (oracle : Nat → Option String × Nat) (attempt retry call_count : Nat),
        (oracle attempt).2 = 429 → retry ≤ 4 →
        retrieve_URL_as_JSON oracle attempt retry call_count
          = ({ requests :=
                 (retrieve_URL_as_JSON oracle (attempt + 1) (retry + 1)
                   ((if call_count > 4 then 0 else call_count) + 1)).1.requests + 1,
               waits :=
                 (if call_count > 4 then [1000] else [])
                   ++ 5000 * retry
                     :: (retrieve_URL_as_JSON oracle (attempt + 1) (retry + 1)
                          ((if call_count > 4 then 0 else call_count) + 1)).1.waits,
               result :=
                 (retrieve_URL_as_JSON oracle (attempt + 1) (retry + 1)
                   ((if call_count > 4 then 0 else call_count) + 1)).1.result },
             (retrieve_URL_as_JSON oracle (attempt + 1) (retry + 1)
               ((if call_count > 4 then 0 else call_count) + 1)).2))
  ∧ (∀ (oracle : Nat → Option String × Nat) (attempt retry call_count : Nat),
        (oracle attempt).2 = 429 → retry > 4 →
        retrieve_URL_as_JSON oracle attempt retry call_count
          = ({ requests := 1, waits := if call_count > 4 then [1000] else [],
               result := .error .rateLimitExhausted },
             (if call_count > 4 then 0 else call_count) + 1))
  ∧ retrieve_URL_as_JSON (fun _ => (some "body", 429)) 0 1 0
      = ({ requests := 5, waits := [5000, 10000, 15000, 20000],
           result := .error .rateLimitExhausted }, 5)
  ∧ retrieve_URL_as_JSON
        (fun n => if n = 0 then (some "body", 429) else (some "body", 200)) 0 1 0
      = ({ requests := 2, waits := [5000], result := .ok "body" }, 2) := by
  refine ⟨?_, ?_, ?_, ?_⟩
  · intro oracle attempt retry call_count h429 hretry
    have hnot : ¬ retry > 4 := by omega
    rw [retrieve_URL_as_JSON]
    simp [h429, hnot]
  · intro oracle attempt retry call_count h429 hretry
    rw [retrieve_URL_as_JSON]
    simp [h429, hretry]
  · simp [retrieve_URL_as_JSON]
  · simp [retrieve_URL_as_JSON]

/-- Claim C3 witness: the unfolding conjuncts applied at a concrete 429
answer, combined with the closed scenarios. -/
theorem C3_witness :
    retrieve_URL_as_JSON (fun _ => (some "body", 429)) 0 5 0
      = ({ requests := 1, waits := [], result := .error .rateLimitExhausted }, 1) := by
  have h := C3_429_retry_protocol.2.1 (fun _ => (some "body", 429)) 0 5 0 rfl (by omega)
  simpa using h

/-- One successful (HTTP 200) call of the controller: a cool-down pause of
1000 ms happens exactly when `call_count > 4` on entry, and the counter is
then reset before being incremented for the request. -/
theorem retrieve_ok200 (cc : Nat) :
    retrieve_URL_as_JSON ok200 0 1 cc
      = ({ requests := 1, waits := if cc > 4 then [1000] else [],
           result := .ok "body" },
         (if cc > 4 then 0 else cc) + 1) := by
  rw [retrieve_URL_as_JSON]
  simp [ok200]

/-- Closed form of the call counter over successful calls. -/
theorem callState_closed (n : Nat) :
    callState n = if n = 0 then 0 else (n - 1) % 5 + 1 := by
  induction n with
  | zero => rfl
  | succ n ih =>
      simp only [callState, retrieve_ok200, ih]
      rcases Nat.eq_zero_or_pos n with h | h
      · subst h; simp
      · have hne : n ≠ 0 := by omega
        simp only [hne, if_false, if_neg]
        split <;> split <;> omega

/-- Claim C7: the controller pauses exactly once after every 5 calls — the
pause preceding call `n + 1` happens precisely when `n` is a non-zero
multiple of 5 — the counter is reset (the call after a pause leaves it at
1), and a sequence of 6 successful calls pauses exactly once, between call 5
and call 6. -/
theorem C7_cooldown_after_every_five_calls :
    (∀ n, callState n = if n = 0 then 0 else (n - 1) % 5 + 1)
  ∧ (∀ n, pause_before_call n = true ↔ (n ≠ 0 ∧ n % 5 = 0))
  ∧ (∀ n, n ≠ 0 → n % 5 = 0 → callState (n + 1) = 1)
  ∧ run_calls 6 0 = [[], [], [], [], [], [1000]] := by
  refine ⟨callState_closed, ?_, ?_, ?_⟩
  · intro n
    simp only [pause_before_call, retrieve_ok200, callState_closed]
    rcases Nat.eq_zero_or_pos n with h | h
    · subst h; simp
    · have hne : n ≠ 0 := by omega
      simp only [hne, if_false, if_neg]
      constructor
      · intro hp
        rcases Nat.lt_or_ge ((n - 1) % 5 + 1) 5 with hlt | hge
        · exfalso
          have : ¬ (n - 1) % 5 + 1 > 4 := by omega
          simp [this] at hp
        · have h5 : (n - 1) % 5 = 4 := by omega
          refine ⟨hne, by omega⟩
      · intro ⟨h0, h5⟩
        have h4 : (n - 1) % 5 + 1 > 4 := by omega
        simp [h4]
  · intro n hne h5
    simp only [callState_closed]
    simp
    omega
  · simp [run_calls, retrieve_ok200]

/-- Claim C7 witness: the pause characterisation and the reset applied at
the concrete call number 5. -/
theorem C7_witness :
    pause_before_call 5 = true ∧ callState 6 = 1 := by
  refine ⟨(C7_cooldown_after_every_five_calls.2.1 5).mpr ⟨by decide, by decide⟩,
          C7_cooldown_after_every_five_calls.2.2.1 5 (by decide) (by decide)⟩

/-- Claim C10 witness: the amended theorem applied to a concrete asset whose
URL carries an `apikey=` parameter. -/
theorem C10_witness :
    resolve_asset_URL
        { asset_ID := "banner", display_name := "Header image", url_thumb := "",
          url := "http://api.example/a.png?apikey=SECRET" }
      = ("http://api.example/a.png?apikey=SECRET", "http://api.example/a.png?apikey=***") := by
  have h := (C10_resolve_asset_URL_redacts_apikey
    { asset_ID := "banner", display_name := "Header image", url_thumb := "",
      url := "http://api.example/a.png?apikey=SECRET" })
  rw [h.1, h.2.2]

/-- The sort relation of `_search_candidates` is transitive. -/
theorem candidateLE_trans (a b c : Candidate) :
    decide (b.order ≤ a.order) = true → decide (c.order ≤ b.order) = true →
    decide (c.order ≤ a.order) = true := by
  simp only [decide_eq_true_eq]
  omega

/-- The sort relation of `_search_candidates` is total. -/
theorem candidateLE_total (a b : Candidate) :
    (decide (b.order ≤ a.order) || decide (a.order ≤ b.order)) = true := by
  simp only [Bool.or_eq_true, decide_eq_true_eq]
  omega

/-- Claim C2: every candidate produced by `_search_candidates` carries the
score 1, plus 2 for a case-insensitive exact match of the display name with
the term, plus 1 more for a case-insensitive substring match; the output is
a permutation of the scored response, sorted by descending score; candidates
with equal score keep the remote response order (stability of the sort); and
the Portal scenario produces scores 4, 2, 1 in that order. -/
theorem C2_search_scoring_and_ranking :
    (∀ (term : String) (json_data : List (Nat × String)) (c : Candidate),
        c ∈ search_candidates term json_data →
        c.order
          = 1 + (if pyLower c.display_name = pyLower term then 2 else 0)
            + (if containsSub (pyLower c.display_name).data (pyLower term).data
               then 1 else 0))
  ∧ (∀ (term : String) (json_data : List (Nat × String)),
        List.Perm (search_candidates term json_data) (scored_candidates term json_data))
  ∧ (∀ (term : String) (json_data : List (Nat × String)),
        (search_candidates term json_data).Pairwise (fun a b => b.order ≤ a.order))
  ∧ (∀ (term : String) (json_data : List (Nat × String)) (a b : Candidate),
        List.Sublist [a, b] (scored_candidates term json_data) → b.order ≤ a.order →
        List.Sublist [a, b] (search_candidates term json_data))
  ∧ search_candidates "Portal" [(1, "Portal"), (2, "Portal 2"), (3, "Unrelated")]
      = [{ id := 1, display_name := "Portal", order := 4 },
         { id := 2, display_name := "Portal 2", order := 2 },
         { id := 3, display_name := "Unrelated", order := 1 }] := by
  refine ⟨?_, ?_, ?_, ?_, ?_⟩
  · intro term json_data c hc
    rw [search_candidates, List.mem_mergeSort, scored_candidates, List.mem_map] at hc
    obtain ⟨item, hmem, rfl⟩ := hc
    dsimp only
    simp only [candidateOrder]
    split_ifs <;> omega
  · intro term json_data
    exact List.mergeSort_perm _ _
  · intro term json_data
    exact (List.sorted_mergeSort candidateLE_trans candidateLE_total _).imp
      (fun h => of_decide_eq_true h)
  · intro term json_data a b hsub hle
    exact List.pair_sublist_mergeSort candidateLE_trans candidateLE_total
      (decide_eq_true hle) hsub
  · have hs : scored_candidates "Portal" [(1, "Portal"), (2, "Portal 2"), (3, "Unrelated")]
        = [{ id := 1, display_name := "Portal", order := 4 },
           { id := 2, display_name := "Portal 2", order := 2 },
           { id := 3, display_name := "Unrelated", order := 1 }] := by decide
    rw [search_candidates, hs]
    exact List.mergeSort_of_sorted (by decide)

/-- Claim C2 witness: the stability conjunct applied to two tied candidates,
and the scoring conjunct applied to the top Portal candidate. -/
theorem C2_witness :
    List.Sublist
      [({ id := 1, display_name := "Game A", order := 1 } : Candidate),
     { id := 2, display_name := "Game B", order := 1 }]
      (search_candidates "zzz" [(1, "Game A"), (2, "Game B")]) := by
  have hs : scored_candidates "zzz" [(1, "Game A"), (2, "Game B")]
      = [{ id := 1, display_name := "Game A", order := 1 },
         { id := 2, display_name := "Game B", order := 1 }] := by decide
  exact C2_search_scoring_and_ranking.2.2.2.1 "zzz" [(1, "Game A"), (2, "Game B")]
    _ _ (hs ▸ List.Sublist.refl _) (by decide)

end SteamSpec
